import Mathlib

set_option maxRecDepth 8192

/-!
Verification development for the `state_variable` repository: a shallow
embedding of the `Metastate` policy registry (`state_variable_meta.py`),
the coercion helpers (`sv_util.py`) and the `IntervalTracker`
(`interval_tracker.py`), together with theorems settling the frozen claims
about the specification.

Python's dynamic values are embedded as the inductive family `PyVal`
(with mutual companion types for nested lists and dictionaries);
dictionaries are association lists preserving insertion order, as Python
dicts do.  Fallible code returns `Except PyError`.  Floats are modelled
as rationals (the program only adds and compares them).  File-backed
input (JSON/YAML paths) is I/O and is represented by the dedicated
`PyError.fileInput` outcome; no claim exercises it.  Diagnostic message
texts follow the source up to ASCII punctuation details.
-/

/-- The Python runtime types that occur in this program. -/
inductive PyType where
  | noneT
  | boolT
  | intT
  | floatT
  | strT
  | listT
  | dictT
  | typeT
deriving DecidableEq, Repr

/-- Python floats as this program uses them (stored, compared, summed):
an always-normalized fraction.  Built on `Nat.gcd`/`Nat.div`, which the
kernel evaluates, so concrete computations reduce. -/
structure PyFloat where
  num : Int
  den : Nat
deriving DecidableEq, Repr

/-- Normalized fraction constructor. -/
def mkFloat (n : Int) (d : Nat) : PyFloat :=
  let g := Nat.gcd n.natAbs d
  if g = 0 then ⟨0, 0⟩ else ⟨n / (g : Int), d / g⟩

/-- The float a Python int converts to. -/
def pf (n : Int) : PyFloat := ⟨n, 1⟩

/-- Float addition. -/
def PyFloat.add (a b : PyFloat) : PyFloat :=
  mkFloat (a.num * (b.den : Int) + b.num * (a.den : Int)) (a.den * b.den)

mutual
/-- Embedding of the Python values the program manipulates. -/
inductive PyVal where
  | none
  | bool (b : Bool)
  | int (n : Int)
  | float (q : PyFloat)
  | str (s : String)
  | pytype (t : PyType)
  | listv (xs : PyList)
  | dictv (xs : PyPairs)
deriving DecidableEq, Repr
/-- A Python list value (companion type for the nested occurrence). -/
inductive PyList where
  | nil
  | cons (hd : PyVal) (tl : PyList)
deriving DecidableEq, Repr
/-- A Python dict value: insertion-ordered key/value pairs. -/
inductive PyPairs where
  | nil
  | cons (key : PyVal) (val : PyVal) (tl : PyPairs)
deriving DecidableEq, Repr
end

def PyList.toList : PyList → List PyVal
  | .nil => []
  | .cons h t => h :: t.toList

def PyList.ofList : List PyVal → PyList
  | [] => .nil
  | h :: t => .cons h (PyList.ofList t)

def PyPairs.toList : PyPairs → List (PyVal × PyVal)
  | .nil => []
  | .cons k v t => (k, v) :: t.toList

def PyPairs.ofList : List (PyVal × PyVal) → PyPairs
  | [] => .nil
  | (k, v) :: t => .cons k v (PyPairs.ofList t)

/-- Python `type(x)` restricted to the embedded universe. -/
def pyType : PyVal → PyType
  | .none => .noneT
  | .bool _ => .boolT
  | .int _ => .intT
  | .float _ => .floatT
  | .str _ => .strT
  | .pytype _ => .typeT
  | .listv _ => .listT
  | .dictv _ => .dictT

/-- Python truthiness `bool(x)` on the embedded universe. -/
def pyBool : PyVal → Bool
  | .none => false
  | .bool b => b
  | .int n => n != 0
  | .float q => q.num != 0
  | .str s => s != ""
  | .pytype _ => true
  | .listv xs => xs != .nil
  | .dictv xs => xs != .nil

/-- `isinstance(x, type)` on the embedded universe. -/
def isTypeVal : PyVal → Bool
  | .pytype _ => true
  | _ => false

/-- `isinstance(x, str)`. -/
def isStrVal : PyVal → Bool
  | .str _ => true
  | _ => false

/-- The errors the embedded code can raise.  `fileInput` marks the
file-loading paths of the source, which are I/O and outside this
embedding. -/
inductive PyError where
  | stateVariableError (msg : String)
  | indexError
  | attributeError
  | keyError
  | typeError
  | valueError (msg : String)
  | nameError
  | fileInput (s : String)
deriving DecidableEq, Repr

instance {ε α : Type} [DecidableEq ε] [DecidableEq α] : DecidableEq (Except ε α) := fun a b =>
  match a, b with
  | .ok x, .ok y =>
    if h : x = y then .isTrue (by rw [h]) else .isFalse (by intro hc; cases hc; exact h rfl)
  | .error x, .error y =>
    if h : x = y then .isTrue (by rw [h]) else .isFalse (by intro hc; cases hc; exact h rfl)
  | .ok _, .error _ => .isFalse (by intro hc; cases hc)
  | .error _, .ok _ => .isFalse (by intro hc; cases hc)

/-- Association-list membership (`k in d` for a Python dict). -/
def amem {β : Type} (d : List (PyVal × β)) (k : PyVal) : Bool :=
  d.any (fun p => p.1 == k)

/-- Association-list lookup (`d.get(k)`). -/
def aget {β : Type} (d : List (PyVal × β)) (k : PyVal) : Option β :=
  (d.find? (fun p => p.1 == k)).map Prod.snd

/-- `d[k] = v`: replace an existing binding in place, else append — Python
dict insertion-order semantics. -/
def aset {β : Type} (d : List (PyVal × β)) (k : PyVal) (v : β) : List (PyVal × β) :=
  match d with
  | [] => [(k, v)]
  | (k0, v0) :: rest =>
    if k0 == k then (k0, v) :: rest else (k0, v0) :: aset rest k v

/-- A Python dictionary with arbitrary values: the working form used by
the registry embedding. -/
abbrev PyDict := List (PyVal × PyVal)

/-- `d[k]` with an explicit default (the embedded code only indexes keys
that are present on reachable inputs). -/
def dgetD (d : PyDict) (k : PyVal) (dflt : PyVal) : PyVal :=
  (aget d k).getD dflt

/-- `d.update(e)`: fold assignment over the entries of `e` in order. -/
def du (d e : PyDict) : PyDict :=
  e.foldl (fun acc p => aset acc p.1 p.2) d

/-- `del d[k]` (for a key known present; removing an absent key is a no-op
here, and the embedded code only deletes keys it has just found). -/
def ddel (d : PyDict) (k : PyVal) : PyDict :=
  d.filter (fun p => p.1 != k)

/-- `sv_util.INVALID`. -/
def INVALID : String := "_x_iNvAlId_x_"

/-- Lowercase a string character-wise (`str.lower` for the ASCII texts
this program handles). -/
def strLower (s : String) : String := ⟨s.data.map Char.toLower⟩

def listStartsWith : List Char → List Char → Bool
  | _, [] => true
  | [], _ :: _ => false
  | a :: as, b :: bs => a == b && listStartsWith as bs

/-- `s.startswith(p)`. -/
def strStartsWith (s p : String) : Bool := listStartsWith s.data p.data

/-- `s.endswith(p)`. -/
def strEndsWith (s p : String) : Bool := listStartsWith s.data.reverse p.data.reverse

/-- `str(x)` as used in the diagnostic texts; container values are elided
(they only ever appear inside advisory messages). -/
def pyStr : PyVal → String
  | .none => "None"
  | .bool b => if b then "True" else "False"
  | .int n => toString n
  | .float q => toString q.num ++ (if q.den == 1 then ".0" else "/" ++ toString q.den)
  | .str s => s
  | .pytype t =>
    match t with
    | .noneT => "<class NoneType>"
    | .boolT => "<class bool>"
    | .intT => "<class int>"
    | .floatT => "<class float>"
    | .strT => "<class str>"
    | .listT => "<class list>"
    | .dictT => "<class dict>"
    | .typeT => "<class type>"
  | .listv _ => "[list]"
  | .dictv _ => "[dict]"

/-- Embeds `sv_util._bool_from_input_`: booleans pass through, strings are
decided by the first character of their lowercasing (`f`/`n`/`0` false,
`t`/`y`/`1` true, anything else raises `StateVariableError`; the empty
string raises `IndexError` at the `[0]` index), all other values go
through Python truthiness. -/
def bool_from_input (v : PyVal) : Except PyError Bool :=
  match v with
  | .bool b => .ok b
  | .str s =>
    match (strLower s).data with
    | [] => .error .indexError
    | c :: _ =>
      if c ∈ ['f', 'n', '0'] then .ok false
      else if c ∈ ['t', 'y', '1'] then .ok true
      else .error (.stateVariableError ("Ambiguous bool eval (" ++ s ++ ")."))
  | w => .ok (pyBool w)

/-- True when a result is the ambiguity (`StateVariableError`) outcome of
`bool_from_input`. -/
def isAmbiguityError : Except PyError Bool → Bool
  | .error (.stateVariableError _) => true
  | _ => false

/-- The `Metastate.parameters` key set, in source dictionary order. -/
def parametersList : List String :=
  ["label", "note", "state", "attr", "verbose", "enforce_set", "enforce_type",
   "notify_set", "notify_type", "package", "override"]

/-- The choice list of the `notify_set`/`notify_type` parameters. -/
def notifyChoices : List String := ["ignore", "alert", "error"]

/-- `Metastate.state_key_defaults`: the default variable descriptor. -/
def state_key_defaults : PyDict :=
  [(.str "state_name", .none), (.str "state_value", .none),
   (.str "state_type", .str "auto"), (.str "state_description", .none)]

/-- The embedded `Metastate` instance.  Governance parameters are typed
fields (the invariant that each always holds a value of its declared
shape is maintained by `process_meta_key_val`); `state` maps variable
names to descriptor dicts; `defined_pkg` is the per-instance package
table built by `_make_defined_packages_` and extended by
`apply_package`. -/
structure Metastate where
  label : String
  note : String
  state : List (PyVal × PyDict)
  attr : List PyVal
  verbose : Bool
  enforce_set : Bool
  enforce_type : Bool
  notify_set : String
  notify_type : String
  package : String
  override : PyVal
  defined_pkg : List (PyVal × PyDict)
deriving DecidableEq, Repr

/-- `Metastate._make_defined_packages_`: the five built-in policy
packages, in construction order. -/
def defined_pkg_init : List (PyVal × PyDict) :=
  [ (.str "default",
      [(.str "package", .str "default"), (.str "verbose", .bool false),
       (.str "enforce_set", .bool false), (.str "enforce_type", .bool false),
       (.str "notify_set", .str "ignore"), (.str "notify_type", .str "ignore")]),
    (.str "minimal",
      [(.str "package", .str "minimal"), (.str "verbose", .bool false),
       (.str "enforce_set", .bool false), (.str "enforce_type", .bool false),
       (.str "notify_set", .str "ignore"), (.str "notify_type", .str "ignore")]),
    (.str "middle",
      [(.str "package", .str "middle"), (.str "verbose", .bool true),
       (.str "enforce_set", .bool true), (.str "enforce_type", .bool false),
       (.str "notify_set", .str "alert"), (.str "notify_type", .str "alert")]),
    (.str "maximal",
      [(.str "package", .str "maximal"), (.str "verbose", .bool true),
       (.str "enforce_set", .bool true), (.str "enforce_type", .bool true),
       (.str "notify_set", .str "error"), (.str "notify_type", .str "error")]),
    (.str "init",
      [(.str "package", .str "init"),
       (.str "enforce_set", .bool false), (.str "enforce_type", .bool false),
       (.str "notify_set", .str "ignore"), (.str "notify_type", .str "ignore")]) ]

/-- `Metastate()` right after `__init__` with no arguments: every
parameter at its declared default, package table seeded. -/
def defaultMetastate : Metastate :=
  { label := "StateVarDef"
    note := "StateVariable class"
    state := []
    attr := []
    verbose := false
    enforce_set := false
    enforce_type := false
    notify_set := "ignore"
    notify_type := "ignore"
    package := "default"
    override := .bool false
    defined_pkg := defined_pkg_init }

/-- `Metastate._svm_alert_`. -/
def svm_alert (m : Metastate) (msg : String) : String :=
  "ALERT:MSV[" ++ m.label ++ "]: " ++ msg

/-- `getattr(self, k)` for the metastate parameters, as a Python value
(used by `to_dict`). -/
def getParam (m : Metastate) (k : String) : PyVal :=
  match k with
  | "label" => .str m.label
  | "note" => .str m.note
  | "state" => .dictv (PyPairs.ofList (m.state.map (fun p => (p.1, PyVal.dictv (PyPairs.ofList p.2)))))
  | "attr" => .listv (PyList.ofList m.attr)
  | "verbose" => .bool m.verbose
  | "enforce_set" => .bool m.enforce_set
  | "enforce_type" => .bool m.enforce_type
  | "notify_set" => .str m.notify_set
  | "notify_type" => .str m.notify_type
  | "package" => .str m.package
  | "override" => m.override
  | _ => .none

/-- Declared-type check of the final branch of
`_process_meta_key_val_`: the keys that reach it (`label`, `note`,
`attr`, `package`, `override`) all have `choices = None`, so the branch
reduces to the `isinstance` test against the declared type tuple. -/
def paramTypeOk (k : String) (v : PyVal) : Bool :=
  match k with
  | "label" => isStrVal v
  | "note" => isStrVal v
  | "state" => (match v with | .dictv _ => true | _ => false)
  | "attr" => (match v with | .listv _ => true | _ => false)
  | "package" => isStrVal v || (match v with | .dictv _ => true | _ => false)
  | "override" =>
    (match v with | .bool _ => true | .str _ => true | .dictv _ => true | _ => false)
  | _ => false

/-- Embeds `Metastate._process_meta_key_val_`: derive a valid metastate
value for one parameter key.  Returns the derived value together with the
lines the source would print; raises exactly where the source raises
(ambiguous boolean strings, `.lower()` on a non-string for the notify
keys). -/
def process_meta_key_val (k v : PyVal) : Except PyError (PyVal × List String) :=
  match k with
  | .str ks =>
    if !(parametersList.contains ks) then .ok (.str (INVALID ++ "|" ++ ks), [])
    else if ks == "state" then .ok (.none, ["Hmmm, you should not be here..."])
    else if strStartsWith ks "enforce" || ks == "verbose" then
      (bool_from_input v).map (fun b => (.bool b, []))
    else if strStartsWith ks "notify" then
      match v with
      | .str s =>
        if notifyChoices.contains (strLower s) then .ok (.str (strLower s), [])
        else .ok (.str "error",
          ["Invalid " ++ ks ++ " choice [" ++ s ++ "] - must be one of [ignore, alert, error]",
           "Returning error"])
      | _ => .error .attributeError
    else
      if paramTypeOk ks v then .ok (v, [])
      else .ok (.str (INVALID ++ "|" ++ ks ++ "=" ++ pyStr v), [])
  | _ => .ok (.str (INVALID ++ "|" ++ pyStr k), [])

/-- Embeds `Metastate._complies`: the two validation gates run against a
merged descriptor.  Returns whether the entry complies plus the alert
lines printed; raises `StateVariableError` in the `error` notify modes. -/
def complies (m : Metastate) (u : PyDict) : Except PyError (Bool × List String) :=
  let stv := dgetD u (.str "state_value") .none
  let stt := dgetD u (.str "state_type") .none
  let stn := dgetD u (.str "state_name") .none
  let tMis := isTypeVal stt && (PyVal.pytype (pyType stv) != stt)
  let msgT := "incorrect type for " ++ pyStr stn ++ ": " ++ pyStr (PyVal.pytype (pyType stv))
    ++ " should be " ++ pyStr stt
  if tMis && (m.notify_type == "error") then
    .error (.stateVariableError (svm_alert m msgT))
  else
    let c1 := !(tMis && m.enforce_type)
    let msgs1 :=
      if tMis && (m.notify_type == "alert") then
        [svm_alert m ((if m.enforce_type then "Not setting value since" else "Setting value although")
          ++ " " ++ msgT)]
      else []
    let sMis := !(amem m.state stn)
    let msgS := pyStr stn ++ " is not a defined state variable."
    if sMis && (m.notify_set == "error") then
      .error (.stateVariableError (svm_alert m msgS))
    else
      let c2 := c1 && !(sMis && m.enforce_set)
      let msgs2 :=
        if sMis && (m.notify_set == "alert") then
          [svm_alert m ((if m.enforce_set then "Not setting value since" else "Setting value although")
            ++ " " ++ msgS)]
        else []
      .ok (c2, msgs1 ++ msgs2)

/-- One entry of the `sv_util._dict_from_input_` list branch:
`return_dict[entry[list_key]] = entry` with `list_key = state_name`. -/
def listEntryToState (acc : PyDict) (entry : PyVal) : Except PyError PyDict :=
  match entry with
  | .dictv p =>
    match aget p.toList (.str "state_name") with
    | Option.some key => .ok (aset acc key entry)
    | Option.none => .error .keyError
  | _ => .error .typeError

/-- Embeds `sv_util._dict_from_input_` for the `state` payloads: a dict
passes through, `None` becomes empty, a list is keyed by each entry's
`state_name`, and a string is a file reference (I/O, represented by
`fileInput`); any other value fails at the `.split` attribute access. -/
def dict_from_input (v : PyVal) : Except PyError PyDict :=
  match v with
  | .dictv d => .ok d.toList
  | .none => .ok []
  | .listv xs => xs.toList.foldlM listEntryToState []
  | .str s => .error (.fileInput s)
  | _ => .error .attributeError

/-- The merge portion of the `_update_meta_state_parameter` loop body:
deep-copy the existing descriptor (or start from the defaults), then fold
in the incoming entry — a dict carrying `state_value` is merged field-wise
(with the name-mismatch diagnostic), anything else becomes the new
`state_value`. -/
def mergeUpdate (m : Metastate) (svName svVal : PyVal) : PyDict × List String :=
  let base :=
    match aget m.state svName with
    | Option.some d => d
    | Option.none => state_key_defaults
  match svVal with
  | .dictv p0 =>
    let d := p0.toList
    if amem d (.str "state_value") then
      if amem d (.str "state_name") then
        if dgetD d (.str "state_name") .none != svName then
          (du base d,
           [pyStr svName ++ " != " ++ pyStr (dgetD d (.str "state_name") .none)
            ++ " -> using " ++ pyStr (dgetD d (.str "state_name") .none)])
        else (du base d, [])
      else (du base (aset d (.str "state_name") svName), [])
    else (du base [(.str "state_name", svName), (.str "state_value", svVal)], [])
  | _ => (du base [(.str "state_name", svName), (.str "state_value", svVal)], [])

/-- The `auto` resolution step: a descriptor whose `state_type` is the
literal string `auto` gets the runtime type of its (possibly just
updated) `state_value`. -/
def resolveAuto (u : PyDict) : PyDict :=
  if dgetD u (.str "state_type") .none == .str "auto" then
    aset u (.str "state_type") (.pytype (pyType (dgetD u (.str "state_value") .none)))
  else u

/-- One full iteration of the `_update_meta_state_parameter` loop: merge,
resolve `auto`, run `_complies`, and store the descriptor under its
`state_name` when it complies. -/
def updateOne (m : Metastate) (svName svVal : PyVal) : Except PyError (Metastate × List String) :=
  let (u0, msgs1) := mergeUpdate m svName svVal
  let u := resolveAuto u0
  (complies m u).map (fun r =>
    (if r.1 then { m with state := aset m.state (dgetD u (.str "state_name") .none) u } else m,
     msgs1 ++ r.2))

/-- Embeds `Metastate._update_meta_state_parameter`. -/
def update_meta_state_parameter (m : Metastate) (metaState : PyVal) :
    Except PyError (Metastate × List String) := do
  let entries ← dict_from_input metaState
  entries.foldlM
    (fun acc e => (updateOne acc.1 e.1 e.2).map (fun r => (r.1, acc.2 ++ r.2))) (m, [])

/-- The unknown-key cull at the end of `apply_package`, followed by the
packages-of-only-a-name check. -/
def cullPackage (m : Metastate) (p : PyDict) : PyDict × List String :=
  let kept := p.filter (fun e =>
    match e.1 with | .str s => parametersList.contains s | _ => false)
  let warns :=
    if m.verbose then
      (p.filter (fun e =>
        match e.1 with | .str s => !(parametersList.contains s) | _ => true)).map
        (fun e => "Warning: " ++ pyStr e.1 ++ " is not a valid metastate parameter.")
    else []
  match kept with
  | [(.str "package", _)] => ([], warns)
  | _ => (kept, warns)

/-- Embeds `Metastate.apply_package`: resolve a package reference into a
governance-parameter dict.  `None`-ish references give an empty update; a
dict registers itself (under its own name, defaulting to `user`); a
string is a file reference (I/O), a known package name, or silently
ignored.  Unknown keys are culled. -/
def apply_package (m : Metastate) (package : PyVal) :
    Except PyError (Metastate × PyDict × List String) :=
  if package == .str "none" || package == .str "None" || package == .none then
    .ok (m, [], [])
  else
    match package with
    | .dictv p0 =>
      let p := p0.toList
      let p1 :=
        if !(amem p (.str "package")) || dgetD p (.str "package") .none == .none then
          aset p (.str "package") (.str "user")
        else p
      let pname := dgetD p1 (.str "package") .none
      let m1 := { m with defined_pkg := aset m.defined_pkg pname p1 }
      let (culled, warns) := cullPackage m1 p1
      .ok (m1, culled, warns)
    | .str s =>
      if strEndsWith s ".json" || strEndsWith s ".yaml" || strEndsWith s ".yml" then
        .error (.fileInput s)
      else
        match aget m.defined_pkg (.str s) with
        | Option.some pkg =>
          let (culled, warns) := cullPackage m pkg
          .ok (m, culled, warns)
        | Option.none =>
          let (culled, warns) := cullPackage m []
          .ok (m, culled, warns)
    | _ => .error .attributeError

/-- The `skip_these` list of `Metastate.mset`. -/
def skip_these : List String := ["package", "verbose", "override", "state"]

/-- The second segment of a `|`-separated string (`value.split('|')[1]`,
for the INVALID diagnostics). -/
def afterBar (s : String) : String :=
  ⟨((s.data.dropWhile (fun c => c != '|')).drop 1).takeWhile (fun c => c != '|')⟩

/-- `setattr(self, this_key, value)` for the parameter keys that reach the
`mset` loop (everything in `skip_these` is skipped before this point, and
`process_meta_key_val` guarantees the value shapes matched here; any
other combination leaves the registry unchanged). -/
def msetAttr (m : Metastate) (k v : PyVal) : Metastate :=
  match k, v with
  | .str "label", .str s => { m with label := s }
  | .str "note", .str s => { m with note := s }
  | .str "attr", .listv xs => { m with attr := xs.toList }
  | .str "enforce_set", .bool b => { m with enforce_set := b }
  | .str "enforce_type", .bool b => { m with enforce_type := b }
  | .str "notify_set", .str s => { m with notify_set := s }
  | .str "notify_type", .str s => { m with notify_type := s }
  | _, _ => m

/-- The main parameter loop of `Metastate.mset`: process each non-skipped
key, warn (verbose only) on INVALID results, otherwise assign. -/
def msetLoop (m : Metastate) : PyDict → Except PyError (Metastate × List String)
  | [] => .ok (m, [])
  | (k, v) :: rest =>
    if (match k with | .str s => skip_these.contains s | _ => false) then
      msetLoop m rest
    else do
      let (value, pmsgs) ← process_meta_key_val k v
      let isInv := match value with | .str s => strStartsWith s INVALID | _ => false
      if isInv then
        let amsgs :=
          if m.verbose then
            [svm_alert m (afterBar (match value with | .str s => s | _ => "") ++
              " not allowed metastate option")]
          else []
        let (m2, rmsgs) ← msetLoop m rest
        .ok (m2, pmsgs ++ amsgs ++ rmsgs)
      else
        let (m2, rmsgs) ← msetLoop (msetAttr m k value) rest
        .ok (m2, pmsgs ++ rmsgs)

/-- The `verbose`-first step of `mset` (`self.verbose` is assigned the
processed value before anything else, since it affects later
diagnostics; the processed value for `verbose` is always a boolean when
no exception is raised). -/
def msetVerboseStep (m1 : Metastate) (setargs : PyDict) :
    Except PyError (Metastate × List String) :=
  match aget setargs (.str "verbose") with
  | Option.some vv =>
    (process_meta_key_val (.str "verbose") vv).map
      (fun r => (match r.1 with
        | .bool b => { m1 with verbose := b }
        | _ => m1, r.2))
  | Option.none => .ok (m1, [])

/-- The remainder of `mset` after the verbose step: the main parameter
loop followed by the `state` payload. -/
def msetTail (m2 : Metastate) (setargs : PyDict) :
    Except PyError (Metastate × List String) := do
  let (m3, msgsL) ← msetLoop m2 setargs
  let (m4, msgsS) ←
    match aget setargs (.str "state") with
    | Option.some sv => update_meta_state_parameter m3 sv
    | Option.none => .ok (m3, ([] : List String))
  .ok (m4, msgsL ++ msgsS)

/-- Embeds `Metastate.mset`, the core mutation entry point: resolve any
`package` reference, merge explicit kwargs over it, process `verbose`
first, then every remaining non-skipped parameter, then the `state`
payload.   The unconditional stray debug line the source prints is kept
in the message log (`reset_par` is the constant `False` in the source, so
the trailing restore block is dead code). -/
def mset (m : Metastate) (kwargs : PyDict) : Except PyError (Metastate × List String) :=
  if kwargs.isEmpty then .ok (m, [])
  else do
    let (m1, setargs0, msgs0) ←
      match aget kwargs (.str "package") with
      | Option.some pv => apply_package m pv
      | Option.none => .ok (m, ([] : PyDict), ([] : List String))
    let setargs := du setargs0 (ddel kwargs (.str "package"))
    let (m2, msgsV) ← msetVerboseStep m1 setargs
    let dbg := ["SVM279 MAKE RESET WORK WITH OVERRIDE META_ ETC"]
    let (m4, msgsT) ← msetTail m2 setargs
    .ok (m4, msgs0 ++ msgsV ++ dbg ++ msgsT)

/-- Embeds `Metastate.reset_state_key`: clear every variable descriptor
(with the verbose-only notice). -/
def reset_state_key (m : Metastate) : Metastate × List String :=
  ({ m with state := [] },
   if m.verbose then ["This will erase all of the current state keys."] else [])

/-- The recorded old/new difference dictionaries of `Metastate.to_dict`. -/
structure MetaDiff where
  old : PyDict
  new : PyDict
deriving DecidableEq, Repr

/-- The parameter loop of `to_dict` in the `update_meta`-dict mode. -/
def toDictAux (m : Metastate) (upd : PyDict) :
    List String → MetaDiff → List String → Except PyError (MetaDiff × List String)
  | [], acc, msgs => .ok (acc, msgs)
  | k :: ks, acc, msgs =>
    match aget upd (.str k) with
    | Option.none => toDictAux m upd ks acc msgs
    | Option.some v => do
      let (nv, pm) ← process_meta_key_val (.str k) v
      if nv != .str INVALID && nv != getParam m k then
        toDictAux m upd ks
          { old := acc.old ++ [(.str k, getParam m k)], new := acc.new ++ [(.str k, nv)] }
          (msgs ++ pm)
      else toDictAux m upd ks acc (msgs ++ pm)

/-- Embeds `Metastate.to_dict` called with an `update_meta` dictionary
(the diff mode): an empty candidate gives an empty result, otherwise the
keys whose processed value differs from the current one are recorded as
parallel old/new dicts.  Note the source compares the processed value
against the bare `INVALID` constant, exactly as embedded here. -/
def to_dict_update (m : Metastate) (upd : PyDict) : Except PyError (MetaDiff × List String) :=
  if upd.isEmpty then .ok (⟨[], []⟩, [])
  else toDictAux m upd parametersList ⟨[], []⟩ []

/-- The governance parameters (everything `to_dict` reports other than
the variable set and the caller-protected `attr`/`override`
bookkeeping). -/
structure GovParams where
  label : String
  note : String
  verbose : Bool
  enforce_set : Bool
  enforce_type : Bool
  notify_set : String
  notify_type : String
  package : String
deriving DecidableEq, Repr

/-- Project a registry onto its governance parameters. -/
def gov (m : Metastate) : GovParams :=
  ⟨m.label, m.note, m.verbose, m.enforce_set, m.enforce_type, m.notify_set, m.notify_type,
   m.package⟩

/-- A Python `datetime` restricted to the fields `interval_tracker.py`
reads (year, month, day, hour, minute); comparison is chronological,
i.e. lexicographic on these fields. -/
structure PyDateTime where
  year : Nat
  month : Nat
  day : Nat
  hour : Nat := 0
  minute : Nat := 0
deriving DecidableEq, Repr

/-- Chronological strict order on datetimes. -/
def dtLt (a b : PyDateTime) : Bool :=
  if a.year != b.year then a.year < b.year
  else if a.month != b.month then a.month < b.month
  else if a.day != b.day then a.day < b.day
  else if a.hour != b.hour then a.hour < b.hour
  else a.minute < b.minute

/-- `max` of two datetimes (used for `sorted(dates)[-1]`). -/
def dtMax (a b : PyDateTime) : PyDateTime := if dtLt a b then b else a

/-- Proleptic-Gregorian leap-year rule (Python `datetime`). -/
def isLeap (y : Nat) : Bool := (y % 4 == 0 && y % 100 != 0) || y % 400 == 0

def daysInMonth (y m : Nat) : Nat :=
  if m == 2 then (if isLeap y then 29 else 28)
  else if m ∈ [4, 6, 9, 11] then 30
  else 31

/-- The next calendar day (the single step of `timedelta(days=1)`). -/
def nextDay (d : PyDateTime) : PyDateTime :=
  if d.day < daysInMonth d.year d.month then { d with day := d.day + 1 }
  else if d.month < 12 then { d with month := d.month + 1, day := 1 }
  else { d with year := d.year + 1, month := 1, day := 1 }

/-- `date + timedelta(days=n)`. -/
def addDays (d : PyDateTime) : Nat → PyDateTime
  | 0 => d
  | n + 1 => addDays (nextDay d) n

/-- The previous calendar day (`- timedelta(days=1)`). -/
def prevDay (d : PyDateTime) : PyDateTime :=
  if d.day > 1 then { d with day := d.day - 1 }
  else if d.month > 1 then { d with month := d.month - 1, day := daysInMonth d.year (d.month - 1) }
  else { d with year := d.year - 1, month := 12, day := 31 }

/-- Embeds `interval_tracker.get_end_of_month`: jump 32 days past the
first of the month, then step back one day from the first of the month
landed in. -/
def get_end_of_month (date : PyDateTime) : PyDateTime :=
  let nm := addDays ⟨date.year, date.month, 1, 0, 0⟩ 32
  prevDay ⟨nm.year, nm.month, 1, 0, 0⟩

/-- Outcome of Python's `float(x)` builtin on an embedded value: a
numeric result, a `ValueError` (the case the tracker catches), or a
`TypeError` (uncaught).  String parsing models the plain decimal forms
`[+-]digits[.digits]`. -/
inductive FloatConv where
  | okF (q : PyFloat)
  | valErr
  | typeErr
deriving DecidableEq, Repr

def digitsToNat (acc : Nat) : List Char → Option Nat
  | [] => Option.some acc
  | c :: cs => if c.isDigit then digitsToNat (acc * 10 + (c.toNat - 48)) cs else Option.none

/-- Parse a plain decimal float literal. -/
def parseFloat (s : String) : Option PyFloat :=
  let core : List Char → Option PyFloat := fun cs =>
    let intPart := cs.takeWhile (fun c => c != '.')
    let rest := cs.dropWhile (fun c => c != '.')
    match rest with
    | [] =>
      if intPart.isEmpty then Option.none
      else (digitsToNat 0 intPart).map (fun n => pf n)
    | _ :: frac =>
      if intPart.isEmpty && frac.isEmpty then Option.none
      else if frac.any (fun c => !c.isDigit) then Option.none
      else
        (digitsToNat 0 intPart).bind (fun n =>
          (digitsToNat 0 frac).map (fun f =>
            mkFloat (n * 10 ^ frac.length + f) (10 ^ frac.length)))
  match s.data with
  | '+' :: cs => core cs
  | '-' :: cs => (core cs).map (fun q => ⟨-q.num, q.den⟩)
  | cs => core cs

/-- Python `float(x)` on the embedded universe. -/
def pyFloatConv : PyVal → FloatConv
  | .int n => .okF (pf n)
  | .float q => .okF q
  | .bool b => .okF (pf (if b then 1 else 0))
  | .str s =>
    match parseFloat s with
    | Option.some q => .okF q
    | Option.none => .valErr
  | _ => .typeErr

/-- The embedded `IntervalTracker` instance.  `interval` is the resolved
granularity (absent when the constructor argument matched no alias, in
which case later use fails at the attribute access); the data maps are
keyed per variable then per bucket mark. -/
structure IntervalTracker where
  interval : Option String
  vars : List String
  values : List (String × List (PyDateTime × PyVal))
  per_interval : List (String × List (PyDateTime × List PyDateTime))
deriving DecidableEq, Repr

/-- `IntervalTracker.intervals_allowed`, in source order. -/
def intervals_allowed : List (String × List String) :=
  [("year", ["year", "yearly", "yr", "annual"]),
   ("month", ["month", "monthly", "mon", "mn"]),
   ("day", ["day", "daily", "dy"]),
   ("hour", ["hour", "hourly", "hr"]),
   ("minute", ["minute", "min"])]

/-- The constructor's interval-resolution loop. -/
def resolveInterval (interval : String) : Option String :=
  (intervals_allowed.find? (fun p => p.2.contains (strLower interval))).map Prod.fst

/-- `IntervalTracker.__init__` (a bare-string `variables` argument is the
one-element list of that name, as in the source). -/
def IntervalTracker.init (interval : String) (vars : List String) : IntervalTracker :=
  { interval := resolveInterval interval
    vars := vars
    values := vars.map (fun v => (v, []))
    per_interval := vars.map (fun v => (v, [])) }

/-- The three input shapes `IntervalTracker._add_dict` accepts. -/
inductive TrackIn (α : Type) where
  | scalar (x : α)
  | listIn (xs : List α)
  | dictIn (xs : List (String × α))

/-- Embeds `IntervalTracker._add_dict`. -/
def add_dict {α : Type} (vars : List String) (x : TrackIn α) :
    Except PyError (List (String × α)) :=
  match x with
  | .dictIn d => .ok d
  | .listIn xs =>
    if xs.length != vars.length then
      .error (.valueError "lengths must agree")
    else .ok (vars.zip xs)
  | .scalar v => .ok (vars.map (fun a => (a, v)))

def lookupKey {κ β : Type} [BEq κ] (d : List (κ × β)) (k : κ) : Option β :=
  (d.find? (fun p => p.1 == k)).map Prod.snd

def setKey {κ β : Type} [BEq κ] (d : List (κ × β)) (k : κ) (v : β) : List (κ × β) :=
  match d with
  | [] => [(k, v)]
  | (k0, v0) :: rest =>
    if k0 == k then (k0, v) :: rest else (k0, v0) :: setKey rest k v

/-- The bucket mark for one date under the resolved granularity; fails at
the attribute access when the interval never resolved, and at the later
unbound use of `mark` for an unrecognized resolved name. -/
def bucketMark (interval : Option String) (vdate : PyDateTime) : Except PyError PyDateTime :=
  match interval with
  | Option.none => .error .attributeError
  | Option.some i =>
    if i == "year" then .ok ⟨vdate.year, 12, 31, 0, 0⟩
    else if i == "month" then .ok (get_end_of_month vdate)
    else if i == "day" then .ok ⟨vdate.year, vdate.month, vdate.day, 0, 0⟩
    else if i == "hour" then .ok ⟨vdate.year, vdate.month, vdate.day, vdate.hour, 0⟩
    else if i == "minute" then .ok ⟨vdate.year, vdate.month, vdate.day, vdate.hour, vdate.minute⟩
    else .error .nameError

/-- `existing + fval` for the running numeric total (`+=` on the stored
bucket value; a non-numeric stored value raises `TypeError` as in
Python). -/
def bucketAdd (existing : PyVal) (q : PyFloat) : Except PyError PyVal :=
  match existing with
  | .float q0 => .ok (.float (q0.add q))
  | .int n => .ok (.float ((pf n).add q))
  | .bool b => .ok (.float ((pf (if b then 1 else 0)).add q))
  | _ => .error .typeError

/-- The per-variable body of the `IntervalTracker.add` loop. -/
def addEntry (t : IntervalTracker) (vrb : String) (vdate : PyDateTime) (vval : PyVal) :
    Except PyError IntervalTracker := do
  let mark ← bucketMark t.interval vdate
  let vb ← match lookupKey t.values vrb with
    | Option.some vb => Except.ok vb
    | Option.none => Except.error PyError.keyError
  let vb' ←
    match pyFloatConv vval with
    | .okF q =>
      match lookupKey vb mark with
      | Option.some old => (bucketAdd old q).map (fun nv => setKey vb mark nv)
      | Option.none => Except.ok (setKey vb mark (.float ((pf 0).add q)))
    | .valErr =>
      match lookupKey vb mark with
      | Option.none => Except.ok (setKey vb mark vval)
      | Option.some _ => do
        let pis ← match lookupKey t.per_interval vrb with
          | Option.some pis => Except.ok pis
          | Option.none => Except.error PyError.keyError
        let dates ← match lookupKey pis mark with
          | Option.some ds => Except.ok ds
          | Option.none => Except.error PyError.keyError
        match dates with
        | [] => Except.error PyError.indexError
        | d0 :: ds =>
          let previous_late := ds.foldl dtMax d0
          if dtLt previous_late vdate then Except.ok (setKey vb mark vval)
          else Except.ok vb
    | .typeErr => Except.error PyError.typeError
  let pis ← match lookupKey t.per_interval vrb with
    | Option.some pis => Except.ok pis
    | Option.none => Except.error PyError.keyError
  let old := (lookupKey pis mark).getD []
  let pis' := setKey pis mark (old ++ [vdate])
  Except.ok { t with
    values := setKey t.values vrb vb'
    per_interval := setKey t.per_interval vrb pis' }

/-- Embeds `IntervalTracker.add`: normalize the date and value inputs,
pair them per variable, and fold each pair through the bucket update. -/
def IntervalTracker.add (t : IntervalTracker) (date : TrackIn PyDateTime)
    (val : TrackIn PyVal) : Except PyError IntervalTracker := do
  let dates2add ← add_dict t.vars date
  let vals2add ← add_dict t.vars val
  let these ← vals2add.foldlM
    (fun acc p =>
      match lookupKey dates2add p.1 with
      | Option.some d => Except.ok (acc ++ [(p.1, d, p.2)])
      | Option.none => Except.error PyError.keyError) []
  these.foldlM (fun t e => addEntry t e.1 e.2.1 e.2.2) t

/-- The claim-C4 scenario, step 1: declare `frequency = 1420.0` on a fresh
registry (the default policy accepts it and resolves the `auto` type tag
to the float type). -/
def c4_declare : Except PyError (Metastate × List String) :=
  mset defaultMetastate
    [(.str "state", .dictv (.cons (.str "frequency") (.float (pf 1420)) .nil))]

/-- Step 2: switch to the built-in `minimal` package. -/
def c4_minimal : Except PyError (Metastate × List String) :=
  c4_declare.bind (fun r => mset r.1 [(.str "package", .str "minimal")])

/-- Step 3: update `frequency` to the wrong-typed value `"abc"`. -/
def c4_update : Except PyError (Metastate × List String) :=
  c4_minimal.bind (fun r =>
    mset r.1 [(.str "state", .dictv (.cons (.str "frequency") (.str "abc") .nil))])

/-- The save/apply/restore sequence the claim C5 describes for a named
package: resolve the package, take the diff of the resolved dict against
the current registry, apply the package, then apply the recorded `old`
mapping. -/
def pkgRoundTrip (m : Metastate) (pname : String) : Except PyError Metastate := do
  let (mA, pkgDict, _) ← apply_package m (.str pname)
  let (d, _) ← to_dict_update mA pkgDict
  let (mB, _) ← mset mA [(.str "package", .str pname)]
  let (mC, _) ← mset mB d.old
  pure mC

/-- The claim-C5 counterexample setting: a registry that differs from the
defaults in `enforce_set` before the `middle` package is applied. -/
def c5_prior : Except PyError Metastate :=
  (mset defaultMetastate [(.str "enforce_set", .bool true)]).map (fun r => r.1)

/-- The C5 counterexample run: the prior registry together with the
result of the save/apply/restore sequence for `middle`. -/
def c5_run : Except PyError (Metastate × Metastate) :=
  c5_prior.bind (fun m1 => (pkgRoundTrip m1 "middle").map (fun m3 => (m1, m3)))

/-- One candidate-update entry leaves a governance parameter unchanged
when the key is absent or its processed value equals the current one
(claim C5's no-change condition for `to_dict`). -/
def unchangedAt (m : Metastate) (upd : PyDict) (k : String) : Bool :=
  match aget upd (.str k) with
  | Option.none => true
  | Option.some v =>
    match process_meta_key_val (.str k) v with
    | .ok r => r.1 == getParam m k
    | .error _ => false

/-- A candidate update leaves every governance parameter unchanged. -/
def coercedUnchanged (m : Metastate) (upd : PyDict) : Bool :=
  parametersList.all (unchangedAt m upd)

/-- The claim-C9 tracker: monthly granularity, single series. -/
def c9_tracker : IntervalTracker := IntervalTracker.init "monthly" ["value"]

/-- C9 numeric run: add `(2023-01-15, 10)` then `(2023-01-20, 5)`. -/
def c9_numeric : Except PyError IntervalTracker :=
  (c9_tracker.add (.scalar ⟨2023, 1, 15, 0, 0⟩) (.scalar (.int 10))).bind
    (fun t => t.add (.scalar ⟨2023, 1, 20, 0, 0⟩) (.scalar (.int 5)))

/-- C9 non-numeric run: add `(2023-01-15, "a")` then `(2023-01-20, "b")`. -/
def c9_text : Except PyError IntervalTracker :=
  (c9_tracker.add (.scalar ⟨2023, 1, 15, 0, 0⟩) (.scalar (.str "a"))).bind
    (fun t => t.add (.scalar ⟨2023, 1, 20, 0, 0⟩) (.scalar (.str "b")))

/-! Association-list and preservation lemmas shared by the claim
theorems. -/

theorem aget_aset_self {β : Type} (d : List (PyVal × β)) (k : PyVal) (v : β) :
    aget (aset d k v) k = Option.some v := by
  induction d with
  | nil => simp [aset, aget]
  | cons p rest ih =>
    obtain ⟨k0, v0⟩ := p
    by_cases h : k0 = k
    · subst h; simp [aset, aget]
    · simp [aset, aget, h] at ih ⊢
      exact ih

theorem aget_aset_ne {β : Type} (d : List (PyVal × β)) (k k' : PyVal) (v : β)
    (h : k ≠ k') : aget (aset d k v) k' = aget d k' := by
  induction d with
  | nil => simp [aset, aget, h]
  | cons p rest ih =>
    obtain ⟨k0, v0⟩ := p
    by_cases h0 : k0 = k
    · subst h0; simp [aset, aget, h]
    · by_cases h1 : k0 = k'
      · subst h1; simp [aset, aget, h0]
      · simp [aset, aget, h0, h1] at ih ⊢
        exact ih

theorem aget_none_of_amem_false {β : Type} (d : List (PyVal × β)) (k : PyVal)
    (h : amem d k = false) : aget d k = Option.none := by
  induction d with
  | nil => simp [aget]
  | cons p rest ih =>
    obtain ⟨k0, v0⟩ := p
    simp [amem] at h
    simp [aget, h.1]
    have hm : amem rest k = false := by simp [amem]; exact h.2
    simpa [aget] using ih hm

theorem msetAttr_package (m : Metastate) (k v : PyVal) :
    (msetAttr m k v).package = m.package := by
  unfold msetAttr
  split <;> rfl

theorem updateOne_package (m : Metastate) (n v : PyVal) (r : Metastate × List String)
    (h : updateOne m n v = .ok r) : r.1.package = m.package := by
  unfold updateOne at h
  rcases hmu : mergeUpdate m n v with ⟨u0, msgs1⟩
  rw [hmu] at h
  dsimp only at h
  cases hc : complies m (resolveAuto u0) with
  | error e => rw [hc] at h; simp [Except.map] at h
  | ok rr =>
    rw [hc] at h
    simp [Except.map] at h
    rw [← h]
    by_cases hb : rr.1 <;> simp [hb]

theorem umsp_fold_package (entries : PyDict) :
    ∀ acc r, entries.foldlM
      (fun acc e => (updateOne acc.1 e.1 e.2).map (fun r => (r.1, acc.2 ++ r.2))) acc = .ok r →
      r.1.package = acc.1.package := by
  induction entries with
  | nil =>
    intro acc r h
    simp [List.foldlM, pure, Except.pure] at h
    rw [← h]
  | cons e rest ih =>
    intro acc r h
    rw [List.foldlM_cons] at h
    cases hu : updateOne acc.1 e.1 e.2 with
    | error err => rw [hu] at h; simp [Except.map, Except.bind, Bind.bind] at h
    | ok rr =>
      rw [hu] at h
      simp only [Except.map, Except.bind, Bind.bind] at h
      have hr := ih (rr.1, acc.2 ++ rr.2) r h
      rw [hr]
      exact updateOne_package _ _ _ rr hu

theorem umsp_package (m : Metastate) (sv : PyVal) (r : Metastate × List String)
    (h : update_meta_state_parameter m sv = .ok r) : r.1.package = m.package := by
  unfold update_meta_state_parameter at h
  cases hd : dict_from_input sv with
  | error e => rw [hd] at h; simp [Except.bind, Bind.bind] at h
  | ok entries =>
    rw [hd] at h
    simp only [Except.bind, Bind.bind] at h
    exact umsp_fold_package entries (m, []) r h

theorem msetLoop_package (entries : PyDict) :
    ∀ m r, msetLoop m entries = .ok r → r.1.package = m.package := by
  induction entries with
  | nil =>
    intro m r h
    unfold msetLoop at h
    simp at h
    rw [← h]
  | cons e rest ih =>
    intro m r h
    rcases e with ⟨k, v⟩
    unfold msetLoop at h
    split at h
    · exact ih m r h
    · cases hp : process_meta_key_val k v with
      | error err =>
        rw [hp] at h
        simp [Except.bind, Bind.bind] at h
      | ok pr =>
        rw [hp] at h
        rcases pr with ⟨value, pmsgs⟩
        simp only [Except.bind, Bind.bind] at h
        split at h
        · cases hr : msetLoop m rest with
          | error err => rw [hr] at h; simp at h
          | ok rr =>
            rw [hr] at h
            simp at h
            rw [← h]
            exact ih m rr hr
        · cases hr : msetLoop (msetAttr m k value) rest with
          | error err => rw [hr] at h; simp at h
          | ok rr =>
            rw [hr] at h
            simp at h
            rw [← h]
            rw [show (rr.1, pmsgs ++ rr.2).1.package = rr.1.package from rfl,
               ih (msetAttr m k value) rr hr]
            exact msetAttr_package m k value

theorem msetVerboseStep_package (m1 : Metastate) (sa : PyDict) (r : Metastate × List String)
    (h : msetVerboseStep m1 sa = .ok r) : r.1.package = m1.package := by
  unfold msetVerboseStep at h
  cases hv : aget sa (.str "verbose") with
  | none => rw [hv] at h; simp at h; rw [← h]
  | some vv =>
    rw [hv] at h
    dsimp only at h
    cases hp : process_meta_key_val (.str "verbose") vv with
    | error err => rw [hp] at h; simp [Except.map] at h
    | ok pr =>
      rw [hp] at h
      simp only [Except.map] at h
      rcases pr with ⟨value, pm⟩
      cases value <;> simp at h <;> rw [← h]

theorem msetTail_package (m2 : Metastate) (sa : PyDict) (r : Metastate × List String)
    (h : msetTail m2 sa = .ok r) : r.1.package = m2.package := by
  unfold msetTail at h
  cases hl : msetLoop m2 sa with
  | error err => rw [hl] at h; simp [Except.bind, Bind.bind] at h
  | ok rl =>
    rw [hl] at h
    simp only [Except.bind, Bind.bind] at h
    cases hs : aget sa (.str "state") with
    | none =>
      rw [hs] at h
      simp at h
      rw [← h]
      exact msetLoop_package _ m2 rl hl
    | some sv =>
      rw [hs] at h
      dsimp only at h
      cases hu : update_meta_state_parameter rl.1 sv with
      | error err => rw [hu] at h; simp at h
      | ok ru =>
        rw [hu] at h
        simp at h
        rw [← h]
        rw [show (ru.1, rl.2 ++ ru.2).1.package = ru.1.package from rfl]
        rw [umsp_package rl.1 sv ru hu]
        exact msetLoop_package _ m2 rl hl

theorem mset_package_of_no_package_key (m : Metastate) (kwargs : PyDict)
    (r : Metastate × List String)
    (hnp : amem kwargs (.str "package") = false)
    (h : mset m kwargs = .ok r) : r.1.package = m.package := by
  unfold mset at h
  split at h
  · simp at h; rw [← h]
  · rw [aget_none_of_amem_false kwargs (.str "package") hnp] at h
    simp only [Except.bind, Bind.bind] at h
    cases hv : msetVerboseStep m (du [] (ddel kwargs (.str "package"))) with
    | error err => rw [hv] at h; simp at h
    | ok rv =>
      rw [hv] at h
      simp only [] at h
      cases ht : msetTail rv.1 (du [] (ddel kwargs (.str "package"))) with
      | error err => rw [ht] at h; simp at h
      | ok rt =>
        rw [ht] at h
        simp at h
        rw [← h]
        rw [show (rt.1, _ ++ _).1.package = rt.1.package from rfl]
        rw [msetTail_package rv.1 _ rt ht]
        exact msetVerboseStep_package m _ rv hv

/-! The claim theorems. -/

/-- C2 (code bug): declaring a variable whose name (`meta`) is in the
caller-protected `attr` list and is not yet a declared variable is NOT
rejected: the registry stores the descriptor with no error and no
diagnostic, although `attr` is documented as the protected-name set (the
protection the claim and the source docstrings describe is never
implemented — no code consults `attr`). -/
theorem c2_protected_name_declaration_not_rejected :
    mset { defaultMetastate with defined_pkg := [] }
      [(.str "attr", .listv (.ofList [.str "meta", .str "state", .str "mset"])),
       (.str "state", .dictv (.cons (.str "meta") (.int 1) .nil))] =
    .ok ({ defaultMetastate with
            defined_pkg := [],
            attr := [.str "meta", .str "state", .str "mset"],
            state := [(.str "meta",
              [(.str "state_name", .str "meta"), (.str "state_value", .int 1),
               (.str "state_type", .pytype .intT), (.str "state_description", .none)])] },
         ["SVM279 MAKE RESET WORK WITH OVERRIDE META_ ETC"]) := by decide

/-- C3 (counterexample): an `mset` call with no `package` key that does
change a governance parameter (`label`, from its default `StateVarDef`
to `X`) leaves `package` at `default`, not `user`. -/
theorem c3_cex_package_not_set_to_user :
    (mset defaultMetastate [(.str "label", .str "X")]).map
      (fun r => (r.1.label, r.1.package)) = .ok ("X", "default") ∧
    defaultMetastate.label = "StateVarDef" ∧ ("default" : String) ≠ "user" := by decide

/-- C3 (amended): for every `mset` call whose kwargs contain no explicit
`package` key, the `package` parameter afterwards equals its value from
before the call — `mset` never assigns it (the `user` re-labelling the
spec describes does not exist in the code; `package` sits in the loop's
skip list and no other assignment targets it). -/
theorem c3_amended_package_preserved (m : Metastate) (kwargs : PyDict)
    (r : Metastate × List String)
    (hnp : amem kwargs (.str "package") = false)
    (h : mset m kwargs = .ok r) : r.1.package = m.package :=
  mset_package_of_no_package_key m kwargs r hnp h

/-- C3 witness: the amended theorem applied to the concrete label-only
update. -/
theorem c3_amended_witness :
    amem ([(.str "label", .str "X")] : PyDict) (.str "package") = false ∧
    mset { defaultMetastate with defined_pkg := [] } [(.str "label", .str "X")] =
      .ok ({ defaultMetastate with
              defined_pkg := [],
              label := "X" },
           ["SVM279 MAKE RESET WORK WITH OVERRIDE META_ ETC"]) ∧
    ({ defaultMetastate with
        defined_pkg := [],
        label := "X" },
      ["SVM279 MAKE RESET WORK WITH OVERRIDE META_ ETC"]).1.package =
      ({ defaultMetastate with defined_pkg := [] } : Metastate).package :=
  ⟨by decide, by decide,
   c3_amended_package_preserved { defaultMetastate with defined_pkg := [] }
     [(.str "label", .str "X")] _ (by decide) (by decide)⟩

/-- C4 (counterexample): after declaring `frequency = 1420.0` and
updating it to `"abc"` under `minimal`, the stored descriptor's type is
the float type resolved at declaration time — not the runtime type of
`"abc"` (the string type) as the claim states (the `auto` tag resolves
once, at declaration; later updates keep the stored concrete type). -/
theorem c4_cex_stored_type_is_float_not_str :
    c4_update.map (fun r => aget r.1.state (.str "frequency")) =
      .ok (Option.some
        [(.str "state_name", .str "frequency"), (.str "state_value", .str "abc"),
         (.str "state_type", .pytype .floatT), (.str "state_description", .none)]) ∧
    PyVal.pytype (pyType (.str "abc")) ≠ .pytype .floatT := by decide

/-- C4 (amended): the wrong-typed update under `minimal` succeeds — no
error is raised, the update is not rejected, no validation or alert
message is emitted (the only output is the stray debug line `mset`
always prints) — and the descriptor stores value `"abc"` while keeping
the float type resolved when the variable was declared. -/
theorem c4_amended_silent_update_keeps_declared_type :
    c4_update.map (fun r => (aget r.1.state (.str "frequency"), r.2)) =
      .ok (Option.some
        [(.str "state_name", .str "frequency"), (.str "state_value", .str "abc"),
         (.str "state_type", .pytype .floatT), (.str "state_description", .none)],
        ["SVM279 MAKE RESET WORK WITH OVERRIDE META_ ETC"]) := by decide

/-- C5 (counterexample): starting from a registry whose `enforce_set` is
`true`, applying the named package `middle` and then the recorded `old`
mapping of the diff taken beforehand does NOT restore the prior
governance parameters: `enforce_set` ends up `false` (the recorded
`old.package = default` re-resolves the full default package, clobbering
parameters the diff did not record). -/
theorem c5_cex_roundtrip_not_restoring :
    c5_run.map (fun p => (p.1.enforce_set, p.2.enforce_set)) = .ok (true, false) := by decide

/-- C7: resetting the variables clears the entire descriptor set and
leaves every governance parameter (label, note, verbose, enforce_set,
enforce_type, notify_set, notify_type, package) unchanged. -/
theorem c7_reset_clears_state_keeps_governance (m : Metastate) :
    (reset_state_key m).1.state = [] ∧ gov (reset_state_key m).1 = gov m :=
  ⟨rfl, rfl⟩

/-- C8 (counterexample): on the empty string the coercion raises
`IndexError` (indexing `[0]` into the lowercased empty string), not the
ambiguity `StateVariableError` the claim promises for every non-boolean
string. -/
theorem c8_cex_empty_string_not_ambiguity_error :
    bool_from_input (.str "") = .error .indexError ∧
    isAmbiguityError (bool_from_input (.str "")) = false := by decide

/-- C9: under monthly granularity, adding `(2023-01-15, 10)` and
`(2023-01-20, 5)` yields exactly one bucket keyed at the month-end mark
`2023-01-31` with aggregate `15`; adding `(2023-01-15, "a")` then
`(2023-01-20, "b")` yields one bucket whose value is `"b"` (the value
with the latest timestamp wins). -/
theorem c9_monthly_bucketing :
    c9_numeric.map (fun t => lookupKey t.values "value") =
      .ok (Option.some [(⟨2023, 1, 31, 0, 0⟩, .float (pf 15))]) ∧
    c9_text.map (fun t => lookupKey t.values "value") =
      .ok (Option.some [(⟨2023, 1, 31, 0, 0⟩, .str "b")]) := by decide

/-- C10: coercing a governance value for the enum-typed `notify_set` or
`notify_type` keys with any non-string input raises (the `.lower()`
attribute access fails) instead of returning the INVALID marker or
falling back to a choice. -/
theorem c10_notify_coercion_raises_on_non_string (v : PyVal) (h : isStrVal v = false) :
    process_meta_key_val (.str "notify_set") v = .error .attributeError ∧
    process_meta_key_val (.str "notify_type") v = .error .attributeError := by
  cases v with
  | none => exact ⟨rfl, rfl⟩
  | bool b => exact ⟨rfl, rfl⟩
  | int n => exact ⟨rfl, rfl⟩
  | float q => exact ⟨rfl, rfl⟩
  | str s => simp [isStrVal] at h
  | pytype t => exact ⟨rfl, rfl⟩
  | listv xs => exact ⟨rfl, rfl⟩
  | dictv xs => exact ⟨rfl, rfl⟩

/-- C10 witness: the boolean input `True`. -/
theorem c10_witness :
    isStrVal (.bool true) = false ∧
    process_meta_key_val (.str "notify_set") (.bool true) = .error .attributeError ∧
    process_meta_key_val (.str "notify_type") (.bool true) = .error .attributeError :=
  ⟨by decide, (c10_notify_coercion_raises_on_non_string (.bool true) (by decide)).1,
   (c10_notify_coercion_raises_on_non_string (.bool true) (by decide)).2⟩

/-- Auxiliary: the `auto` resolution step really ties the type field to
the runtime type of the value field. -/
theorem resolveAuto_resolves (u0 : PyDict)
    (h : dgetD u0 (.str "state_type") .none = .str "auto") :
    dgetD (resolveAuto u0) (.str "state_type") .none =
      .pytype (pyType (dgetD (resolveAuto u0) (.str "state_value") .none)) := by
  unfold resolveAuto
  rw [h]
  simp only [beq_self_eq_true, if_pos]
  rw [show dgetD (aset u0 (.str "state_type")
        (.pytype (pyType (dgetD u0 (.str "state_value") PyVal.none)))) (.str "state_type")
        PyVal.none = .pytype (pyType (dgetD u0 (.str "state_value") PyVal.none)) by
    unfold dgetD; rw [aget_aset_self]; rfl]
  rw [show dgetD (aset u0 (.str "state_type")
        (.pytype (pyType (dgetD u0 (.str "state_value") PyVal.none)))) (.str "state_value")
        PyVal.none = dgetD u0 (.str "state_value") PyVal.none by
    unfold dgetD; rw [aget_aset_ne _ _ _ _ (by decide)]]

/-- Auxiliary: when `_complies` returns non-compliance without raising and
the type gate did not fire, the set gate must have fired, i.e. the
descriptor's name is not yet declared. -/
theorem complies_ok_false_name_absent (m : Metastate) (u : PyDict) (rr : Bool × List String)
    (hc : complies m u = .ok rr) (hb : rr.1 = false)
    (ht : (isTypeVal (dgetD u (.str "state_type") .none) &&
      (PyVal.pytype (pyType (dgetD u (.str "state_value") .none)) !=
       dgetD u (.str "state_type") .none)) = false) :
    amem m.state (dgetD u (.str "state_name") .none) = false := by
  unfold complies at hc
  simp only [ht, Bool.false_and, Bool.and_false, if_neg] at hc
  simp only [Bool.not_false, Bool.true_and] at hc
  split at hc
  · cases hc
  · split at hc
    · cases hc
    · have hx := Except.ok.inj hc
      rw [← hx] at hb
      simp at hb
      exact hb.1

/-- Auxiliary: the `to_dict` parameter loop records nothing when every
examined key's processed value equals the current one. -/
theorem toDictAux_unchanged (m : Metastate) (upd : PyDict) :
    ∀ (ks : List String) (acc : MetaDiff) (msgs : List String),
      (∀ k ∈ ks, unchangedAt m upd k = true) →
      ∃ ms, toDictAux m upd ks acc msgs = .ok (acc, ms) := by
  intro ks
  induction ks with
  | nil => intro acc msgs _; exact ⟨msgs, rfl⟩
  | cons k ks ih =>
    intro acc msgs h
    have hk := h k (by simp)
    have hrest : ∀ k' ∈ ks, unchangedAt m upd k' = true :=
      fun k' hk' => h k' (List.mem_cons_of_mem _ hk')
    unfold toDictAux
    unfold unchangedAt at hk
    cases hg : aget upd (.str k) with
    | none => exact ih acc msgs hrest
    | some v =>
      rw [hg] at hk
      dsimp only at hk ⊢
      cases hp : process_meta_key_val (.str k) v with
      | error e => rw [hp] at hk; cases hk
      | ok pr =>
        rw [hp] at hk
        have heq : pr.1 = getParam m k := by simpa using hk
        simp only [Except.bind, Bind.bind]
        rw [heq, bne_self_eq_false]
        simp only [Bool.and_false]
        rw [if_neg (show ¬(false = true) by decide)]
        exact ih acc (msgs ++ pr.2) hrest

/-- C1: whenever a variable update's value has a runtime type different
from the descriptor's concrete expected type and `notify_type` is
`error`, the compliance check raises `StateVariableError` — for both
values of `enforce_type` (the enforce flag only governs whether the
entry is additionally marked non-compliant, a point the raise preempts
identically in both cases). -/
theorem c1_error_notify_always_raises (m : Metastate) (u : PyDict)
    (h1 : m.notify_type = "error")
    (h2 : isTypeVal (dgetD u (.str "state_type") .none) = true)
    (h3 : PyVal.pytype (pyType (dgetD u (.str "state_value") .none)) ≠
          dgetD u (.str "state_type") .none) :
    ∀ b : Bool, ∃ msg,
      complies { m with enforce_type := b } u = .error (.stateVariableError msg) := by
  intro b
  have hb : (PyVal.pytype (pyType (dgetD u (.str "state_value") PyVal.none)) !=
      dgetD u (.str "state_type") PyVal.none) = true := bne_iff_ne.mpr h3
  refine ⟨svm_alert { m with enforce_type := b }
    ("incorrect type for " ++ pyStr (dgetD u (.str "state_name") .none) ++ ": " ++
     pyStr (PyVal.pytype (pyType (dgetD u (.str "state_value") .none))) ++ " should be " ++
     pyStr (dgetD u (.str "state_type") .none)), ?_⟩
  unfold complies
  rw [show ({ m with enforce_type := b } : Metastate).notify_type = "error" from h1]
  simp only [h2, hb]
  simp [svm_alert]

/-- A wrong-typed merged descriptor used to witness claim C1. -/
def c1_wu : PyDict :=
  [(.str "state_name", .str "frequency"), (.str "state_value", .str "abc"),
   (.str "state_type", .pytype .floatT), (.str "state_description", .none)]

/-- C1 witness: a registry in `error` notify mode and a float-typed
descriptor holding a string, under both enforce settings. -/
theorem c1_witness :
    ({ defaultMetastate with notify_type := "error" } : Metastate).notify_type = "error" ∧
    isTypeVal (dgetD c1_wu (.str "state_type") .none) = true ∧
    PyVal.pytype (pyType (dgetD c1_wu (.str "state_value") .none)) ≠
      dgetD c1_wu (.str "state_type") .none ∧
    (∃ msg, complies { ({ defaultMetastate with notify_type := "error" } : Metastate) with
        enforce_type := true } c1_wu = .error (.stateVariableError msg)) ∧
    (∃ msg, complies { ({ defaultMetastate with notify_type := "error" } : Metastate) with
        enforce_type := false } c1_wu = .error (.stateVariableError msg)) :=
  ⟨rfl, by decide, by decide,
   c1_error_notify_always_raises { defaultMetastate with notify_type := "error" } c1_wu
     rfl (by decide) (by decide) true,
   c1_error_notify_always_raises { defaultMetastate with notify_type := "error" } c1_wu
     rfl (by decide) (by decide) false⟩

/-- C5 (amended): the diff is empty whenever the candidate update is
empty or leaves every governance parameter's coerced value equal to its
current value; and, starting from the default governance parameters,
applying any built-in named package and then the recorded `old` mapping
of the diff taken beforehand restores every governance parameter (for a
prior state that deviates from a package's own defaults the restore can
clobber parameters absent from the diff — see the counterexample). -/
theorem c5_amended_diff_and_default_roundtrip :
    (∀ m : Metastate, to_dict_update m [] = .ok (⟨[], []⟩, [])) ∧
    (∀ (m : Metastate) (upd : PyDict), coercedUnchanged m upd = true →
      ∃ ms, to_dict_update m upd = .ok (⟨[], []⟩, ms)) ∧
    ((pkgRoundTrip defaultMetastate "default").map gov = .ok (gov defaultMetastate) ∧
     (pkgRoundTrip defaultMetastate "minimal").map gov = .ok (gov defaultMetastate) ∧
     (pkgRoundTrip defaultMetastate "middle").map gov = .ok (gov defaultMetastate) ∧
     (pkgRoundTrip defaultMetastate "maximal").map gov = .ok (gov defaultMetastate) ∧
     (pkgRoundTrip defaultMetastate "init").map gov = .ok (gov defaultMetastate)) := by
  refine ⟨fun m => rfl, ?_, by decide, by decide, by decide, by decide, by decide⟩
  intro m upd hcu
  unfold to_dict_update
  unfold coercedUnchanged at hcu
  by_cases he : upd.isEmpty
  · rw [if_pos he]
    exact ⟨[], rfl⟩
  · rw [if_neg he]
    exact toDictAux_unchanged m upd parametersList ⟨[], []⟩ []
      (fun k hk => List.all_eq_true.mp hcu k hk)

/-- C5 witness: a no-change candidate (label set to its current value)
yields an empty diff. -/
theorem c5_amended_witness :
    coercedUnchanged defaultMetastate [(.str "label", .str "StateVarDef")] = true ∧
    (∃ ms, to_dict_update defaultMetastate [(.str "label", .str "StateVarDef")] =
      .ok (⟨[], []⟩, ms)) :=
  ⟨by decide, c5_amended_diff_and_default_roundtrip.2.1 defaultMetastate
    [(.str "label", .str "StateVarDef")] (by decide)⟩

/-- C6: for every update whose merged descriptor carries the `auto` type
tag, the descriptor found under the merged name after the update
completes has its resolved type equal to the runtime type of its stored
value (when the entry is stored it is the freshly resolved one; when it
is rejected, nothing sits under the name at all). -/
theorem c6_auto_type_resolved (m : Metastate) (svName svVal : PyVal)
    (r : Metastate × List String) (d : PyDict)
    (h1 : dgetD (mergeUpdate m svName svVal).1 (.str "state_type") .none = .str "auto")
    (h2 : updateOne m svName svVal = .ok r)
    (h3 : aget r.1.state
        (dgetD (resolveAuto (mergeUpdate m svName svVal).1) (.str "state_name") .none) =
      Option.some d) :
    dgetD d (.str "state_type") .none =
      .pytype (pyType (dgetD d (.str "state_value") .none)) := by
  rcases hmu : mergeUpdate m svName svVal with ⟨u0, msgs1⟩
  rw [hmu] at h1 h3
  dsimp only at h1 h3
  have hP := resolveAuto_resolves u0 h1
  have htMis : (isTypeVal (dgetD (resolveAuto u0) (.str "state_type") .none) &&
      (PyVal.pytype (pyType (dgetD (resolveAuto u0) (.str "state_value") .none)) !=
       dgetD (resolveAuto u0) (.str "state_type") .none)) = false := by
    rw [hP]
    simp
  unfold updateOne at h2
  rw [hmu] at h2
  dsimp only at h2
  cases hc : complies m (resolveAuto u0) with
  | error e => rw [hc] at h2; simp [Except.map] at h2
  | ok rr =>
    rw [hc] at h2
    simp [Except.map] at h2
    by_cases hb : rr.1 = true
    · rw [if_pos hb] at h2
      rw [← h2] at h3
      simp only at h3
      rw [aget_aset_self] at h3
      have hd := Option.some.inj h3
      rw [← hd]
      exact hP
    · rw [if_neg hb] at h2
      rw [← h2] at h3
      simp only at h3
      have hnm := complies_ok_false_name_absent m (resolveAuto u0) rr hc
        (by simpa using hb) htMis
      rw [aget_none_of_amem_false _ _ hnm] at h3
      cases h3

/-- The descriptor stored for the C6 witness declaration. -/
def c6_wdesc : PyDict :=
  [(.str "state_name", .str "x"), (.str "state_value", .int 5),
   (.str "state_type", .pytype .intT), (.str "state_description", .none)]

/-- C6 witness: declaring `x = 5` with the default (`auto`) type tag
stores the int type. -/
theorem c6_witness :
    dgetD (mergeUpdate { defaultMetastate with defined_pkg := [] } (.str "x") (.int 5)).1
      (.str "state_type") .none = .str "auto" ∧
    dgetD c6_wdesc (.str "state_type") .none =
      .pytype (pyType (dgetD c6_wdesc (.str "state_value") .none)) :=
  ⟨by decide,
   c6_auto_type_resolved { defaultMetastate with defined_pkg := [] } (.str "x") (.int 5)
     ({ defaultMetastate with defined_pkg := [], state := [(.str "x", c6_wdesc)] }, [])
     c6_wdesc (by decide) (by decide) (by decide)⟩

/-- C8 (amended): booleans pass through unchanged; a non-empty string is
decided by the lowercased first character (`f`/`n`/`0` false, `t`/`y`/`1`
true) with the ambiguity error for any other non-empty string, while the
empty string raises an index error rather than the ambiguity error; all
other input types map to their natural truthiness; and on every valid
boolean-like string the coercion is idempotent. -/
theorem c8_amended_canonical_bool :
    (∀ b : Bool, bool_from_input (.bool b) = .ok b) ∧
    (∀ (s : String) (c : Char) (cs : List Char), (strLower s).data = c :: cs →
      ((c ∈ ['f', 'n', '0'] → bool_from_input (.str s) = .ok false) ∧
       (c ∈ ['t', 'y', '1'] → bool_from_input (.str s) = .ok true) ∧
       (c ∉ ['f', 'n', '0'] → c ∉ ['t', 'y', '1'] →
         isAmbiguityError (bool_from_input (.str s)) = true))) ∧
    bool_from_input (.str "") = .error .indexError ∧
    (∀ v : PyVal, isStrVal v = false → bool_from_input v = .ok (pyBool v)) ∧
    (∀ (s : String) (b : Bool), bool_from_input (.str s) = .ok b →
      bool_from_input (.bool b) = .ok b) := by
  refine ⟨fun b => rfl, ?_, by decide, ?_, fun s b _ => rfl⟩
  · intro s c cs hdata
    unfold bool_from_input
    dsimp only
    rw [hdata]
    dsimp only
    refine ⟨fun hf => by rw [if_pos hf], fun ht => ?_, fun hnf hnt => ?_⟩
    · simp only [List.mem_cons, List.not_mem_nil, or_false] at ht
      rcases ht with rfl | rfl | rfl <;> rfl
    · rw [if_neg hnf, if_neg hnt]
      rfl
  · intro v hv
    cases v with
    | none => rfl
    | bool b => rfl
    | int n => rfl
    | float q => rfl
    | str s => simp [isStrVal] at hv
    | pytype t => rfl
    | listv xs => rfl
    | dictv xs => rfl

/-- C8 witness: concrete instances of each conjunct. -/
theorem c8_amended_witness :
    bool_from_input (.bool true) = .ok true ∧
    bool_from_input (.str "Flag") = .ok false ∧
    bool_from_input (.str "YES") = .ok true ∧
    isAmbiguityError (bool_from_input (.str "maybe")) = true ∧
    bool_from_input (.int 7) = .ok (pyBool (.int 7)) ∧
    bool_from_input (.bool false) = .ok false :=
  ⟨c8_amended_canonical_bool.1 true,
   (c8_amended_canonical_bool.2.1 "Flag" 'f' ['l', 'a', 'g'] (by decide)).1 (by decide),
   (c8_amended_canonical_bool.2.1 "YES" 'y' ['e', 's'] (by decide)).2.1 (by decide),
   (c8_amended_canonical_bool.2.1 "maybe" 'm' ['a', 'y', 'b', 'e']
     (by decide)).2.2 (by decide) (by decide),
   c8_amended_canonical_bool.2.2.2.1 (.int 7) (by decide),
   c8_amended_canonical_bool.2.2.2.2 "no" false (by decide)⟩
